import Mathlib

/-! Verification of the fraud-detection ETL pipeline
(`ETL_project/advanced_fraud_pipeline.py`).

The pipeline loads three sources (paysim parquet, AML csv, currency json),
enriches the AML transactions with a left join against the currency lookup
and three derived risk flags, cross-references them against a quantile
threshold computed from the fraud-labeled paysim rows, and commits the
result to a DuckDB store (table `fraud_transactions` plus view
`high_risk_alerts`).

Tables are embedded as lists of records; machine floats carrying monetary
amounts are embedded as `Int`; Spark/DuckDB/Prefect calls that can fail are
given explicit fault parameters or `Option` results.  Functions marked
`Modelled from the spec` embed behaviour of external collaborators
(the dataframe engine's quantile estimator, the orchestrator's cache)
that the repository only invokes. -/

namespace FraudPipeline

/-! ## Timestamp parsing

The source parses the raw `Timestamp` column with
`to_timestamp("Timestamp", "yyyy/MM/dd HH:mm")` and then derives
`hour`.  We parse the same pattern at the character level; an
unparseable string yields `none` (Spark's `to_timestamp` yields null). -/

/-- Split a character list on a separator, keeping empty fields. -/
def splitOnChar (sep : Char) : List Char → List (List Char)
  | [] => [[]]
  | c :: cs =>
    let rest := splitOnChar sep cs
    if c = sep then [] :: rest
    else
      match rest with
      | [] => [[c]]
      | r :: rs => (c :: r) :: rs

/-- Decimal value of a digit character, `none` otherwise. -/
def digitVal (c : Char) : Option Nat :=
  if '0' ≤ c ∧ c ≤ '9' then some (c.toNat - '0'.toNat) else none

/-- Accumulate a decimal number from digit characters. -/
def digitsToNatAux : List Char → Nat → Option Nat
  | [], acc => some acc
  | c :: cs, acc =>
    match digitVal c with
    | some d => digitsToNatAux cs (10 * acc + d)
    | none => none

/-- Parse a non-empty all-digit character list as a natural number. -/
def digitsToNat : List Char → Option Nat
  | [] => none
  | c :: cs => digitsToNatAux (c :: cs) 0

/-- A parsed `yyyy/MM/dd HH:mm` instant. -/
structure Timestamp where
  year : Nat
  month : Nat
  day : Nat
  hour : Nat
  minute : Nat
deriving DecidableEq, Repr

/-- Parse the pattern `yyyy/MM/dd HH:mm`, with field-range validation;
`none` models Spark's null result on an unparseable string. -/
def parseTimestamp (s : String) : Option Timestamp :=
  match splitOnChar ' ' s.data with
  | [datePart, timePart] =>
    match splitOnChar '/' datePart, splitOnChar ':' timePart with
    | [y, mo, d], [h, mi] =>
      match digitsToNat y, digitsToNat mo, digitsToNat d, digitsToNat h, digitsToNat mi with
      | some yv, some mv, some dv, some hv, some miv =>
        if 1 ≤ mv ∧ mv ≤ 12 ∧ 1 ≤ dv ∧ dv ≤ 31 ∧ hv ≤ 23 ∧ miv ≤ 59 then
          some ⟨yv, mv, dv, hv, miv⟩
        else none
      | _, _, _, _, _ => none
    | _, _ => none
  | _ => none

/-! ## Data model -/

/-- A row of the AML transaction table: columns `Amount Paid`,
`Payment Currency` and `Timestamp` used by the pipeline. -/
structure AmlRow where
  amountPaid : Int
  paymentCurrency : String
  timestampRaw : String
deriving DecidableEq, Repr

/-- A row of the currency lookup produced by the `currency` load branch:
the exploded json map gives columns `currency_code` and `currency_name`. -/
structure CurrencyRow where
  currency_code : String
  currency_name : String
deriving DecidableEq, Repr

/-- A row of the paysim table: columns `amount` and `isFraud` used by
`cross_ref`. -/
structure PaysimRow where
  amount : Int
  isFraud : Int
deriving DecidableEq, Repr

/-! ## Enrichment (`enrich_and_flag_aml`) -/

/-- Column `is_night_transaction`:
`when((col("hour") < 6) | (col("hour") > 21), 1).otherwise(0)`;
a null hour falls into `otherwise`. -/
def nightFlag (h : Option Nat) : Int :=
  match h with
  | some hv => if hv < 6 ∨ hv > 21 then 1 else 0
  | none => 0

/-- Column `high_amount_flag`:
`when(col("Amount Paid") > 1_000_000, 1).otherwise(0)`. -/
def highAmountFlag (a : Int) : Int :=
  if a > 1000000 then 1 else 0

/-- Column `aml_alert_flag`:
`when(col("high_amount_flag") == 1, 1).otherwise(0)`. -/
def amlAlertFlag (highFlag : Int) : Int :=
  if highFlag == 1 then 1 else 0

/-- The left outer join
`aml_df.join(currency_df, aml_df["Payment Currency"] == currency_df["currency_name"], "left")`:
each AML row is paired with every matching lookup row, or with `none`
when no lookup row matches. -/
def leftJoin (aml : List AmlRow) (cur : List CurrencyRow) :
    List (AmlRow × Option CurrencyRow) :=
  aml.flatMap fun t =>
    match cur.filter (fun c => t.paymentCurrency == c.currency_name) with
    | [] => [(t, none)]
    | m :: ms => (m :: ms).map (fun c => (t, some c))

/-- An enriched AML row: the joined lookup columns plus the derived
`timestamp`, `hour` and the three flags. -/
structure EnrichedRow where
  base : AmlRow
  joined : Option CurrencyRow
  timestamp : Option Timestamp
  hour : Option Nat
  is_night_transaction : Int
  high_amount_flag : Int
  aml_alert_flag : Int
deriving DecidableEq, Repr

/-- Derivation of the enriched columns for one joined row. -/
def enrichRow (p : AmlRow × Option CurrencyRow) : EnrichedRow :=
  let ts := parseTimestamp p.1.timestampRaw
  let h := ts.map Timestamp.hour
  { base := p.1
    joined := p.2
    timestamp := ts
    hour := h
    is_night_transaction := nightFlag h
    high_amount_flag := highAmountFlag p.1.amountPaid
    aml_alert_flag := amlAlertFlag (highAmountFlag p.1.amountPaid) }

/-- The task `enrich_and_flag_aml`: left join then derived columns. -/
def enrich_and_flag_aml (aml : List AmlRow) (cur : List CurrencyRow) :
    List EnrichedRow :=
  (leftJoin aml cur).map enrichRow

/-! ## Risk cross-reference (`risk_flagging_subflow.cross_ref`) -/

/-- Modelled from the spec: the external dataframe engine's approximate
quantile estimator, `approxQuantile("amount", [0.95], 0.01)`, which the
repository only invokes (the engine is out of scope, specified at its
interface boundary).  Embedded as a deterministic 95th-percentile over
the multiset of values: the element of rank `ceil(0.95 * n)` of the
sorted values.  On an empty input the quantile list is empty, so the
subsequent index `[0]` has no value: the result is `none`. -/
def approxQuantile95 (xs : List Int) : Option Int :=
  match List.insertionSort (· ≤ ·) xs with
  | [] => none
  | y :: ys => some ((y :: ys).getD ((19 * (y :: ys).length + 19) / 20 - 1) y)

/-- The cross-reference failure: line 59 evaluates
`paysim.filter("isFraud == 1").approxQuantile("amount", [0.95], 0.01)[0]`,
whose index lookup has no value when the filtered set is empty. -/
inductive CrossRefError where
  | thresholdUndefined
deriving DecidableEq, Repr

/-- The fraud-labeled subset: `paysim.filter("isFraud == 1")`. -/
def fraudFilter (paysim : List PaysimRow) : List PaysimRow :=
  paysim.filter (fun r => r.isFraud == 1)

/-- The per-run risk threshold: 95th-percentile amount of the
fraud-labeled paysim rows. -/
def fraudThreshold (paysim : List PaysimRow) : Option Int :=
  approxQuantile95 ((fraudFilter paysim).map PaysimRow.amount)

/-- A final row: the enriched columns plus `paysim_high_risk`. -/
structure FinalRow where
  enriched : EnrichedRow
  paysim_high_risk : Int
deriving DecidableEq, Repr

/-- The nested task `cross_ref`: fails when the threshold is undefined,
otherwise adds `paysim_high_risk = when(col("Amount Paid") > fraud_threshold, 1).otherwise(0)`. -/
def cross_ref (paysim : List PaysimRow) (aml : List EnrichedRow) :
    Except CrossRefError (List FinalRow) :=
  match fraudThreshold paysim with
  | none => Except.error CrossRefError.thresholdUndefined
  | some t => Except.ok (aml.map fun r =>
      { enriched := r, paysim_high_risk := if r.base.amountPaid > t then 1 else 0 })

/-! ## Sink commit (`load_to_duckdb`) -/

/-- Amount column of a final row (`"Amount Paid"`). -/
def amountOf (r : FinalRow) : Int := r.enriched.base.amountPaid

/-- Descending order on the amount column (`ORDER BY "Amount Paid" DESC`). -/
def amountDescOrder (a b : FinalRow) : Prop := amountOf b ≤ amountOf a

instance : DecidableRel amountDescOrder := fun a b => Int.decLe _ _

/-- The view `high_risk_alerts`:
`SELECT * FROM fraud_transactions WHERE aml_alert_flag = 1 OR paysim_high_risk = 1 ORDER BY "Amount Paid" DESC`. -/
def high_risk_alerts (rows : List FinalRow) : List FinalRow :=
  List.insertionSort amountDescOrder
    (rows.filter (fun r => r.enriched.aml_alert_flag == 1 || r.paysim_high_risk == 1))

/-- The analytical store: the committed `fraud_transactions` table and the
derived `high_risk_alerts` view, `none` before their first creation. -/
structure StoreState where
  fraud_transactions : Option (List FinalRow)
  high_risk_alerts_view : Option (List FinalRow)
deriving DecidableEq, Repr

/-- Fault injection for the five external effects of `load_to_duckdb`, in
program order: the staging parquet write, `duckdb.connect`, the
`CREATE OR REPLACE TABLE` statement, the `CREATE OR REPLACE VIEW`
statement, and the two `COUNT` queries. -/
structure CommitFaults where
  stageOk : Bool
  connectOk : Bool
  replaceTableOk : Bool
  replaceViewOk : Bool
  countOk : Bool
deriving DecidableEq, Repr

/-- Outcome of one `load_to_duckdb` invocation: the resulting store,
whether the DuckDB connection was ever opened, whether it was closed by
the `finally` block, and whether the task succeeded. -/
structure CommitResult where
  store : StoreState
  connOpened : Bool
  connClosed : Bool
  ok : Bool
deriving DecidableEq, Repr

/-- The task `load_to_duckdb`.  Each external effect either succeeds or
raises, per `CommitFaults`; an exception propagates (after the `finally`
block runs) and the task fails.  `CREATE OR REPLACE` statements are
atomic per statement, so a failed replace leaves the previous object; a
replace that succeeded stays committed even when a later statement
fails.  When the staging write or the connect raises, `con` was never
assigned, so no connection was opened (the `finally` block's `con.close()`
then itself raises on the unbound name, but no resource leaks). -/
def load_to_duckdb (prev : StoreState) (final : List FinalRow) (f : CommitFaults) :
    CommitResult :=
  if f.stageOk then
    if f.connectOk then
      if f.replaceTableOk then
        if f.replaceViewOk then
          if f.countOk then
            { store := { fraud_transactions := some final
                         high_risk_alerts_view := some (high_risk_alerts final) }
              connOpened := true, connClosed := true, ok := true }
          else
            { store := { fraud_transactions := some final
                         high_risk_alerts_view := some (high_risk_alerts final) }
              connOpened := true, connClosed := true, ok := false }
        else
          { store := { fraud_transactions := some final
                       high_risk_alerts_view := prev.high_risk_alerts_view }
            connOpened := true, connClosed := true, ok := false }
      else
        { store := prev, connOpened := true, connClosed := true, ok := false }
    else
      { store := prev, connOpened := false, connClosed := false, ok := false }
  else
    { store := prev, connOpened := false, connClosed := false, ok := false }

/-! ## Loader (`load_data`) and its cache -/

/-- Results of the three engine reads a `load_data` call may attempt:
`spark.read.parquet`, `spark.read...csv`, and the wholetext read plus
json-map explosion of the currency file.  `none` models a raised
read/parse failure. -/
structure LoadEnv (α : Type) where
  parquetRead : Option α
  csvRead : Option α
  currencyRead : Option α
deriving DecidableEq, Repr

/-- Outcome of `load_data`: a loaded table, a propagated read failure, or
the unbound-`df` failure at the row-count log line when no source branch
matched. -/
inductive LoadOutcome (α : Type) where
  | ok (t : α)
  | readFailure
  | dfUnassigned
deriving DecidableEq, Repr

/-- The task `load_data`: dispatch on the `source` string; for an
unsupported source no branch assigns `df`, and the row-count log line
`logger.info(f"Loaded {source} data: {df.count()} rows")` raises on the
unbound local. -/
def load_data {α : Type} (source : String) (env : LoadEnv α) : LoadOutcome α :=
  if source == "paysim" then
    match env.parquetRead with
    | some t => LoadOutcome.ok t
    | none => LoadOutcome.readFailure
  else if source == "aml" then
    match env.csvRead with
    | some t => LoadOutcome.ok t
    | none => LoadOutcome.readFailure
  else if source == "currency" then
    match env.currencyRead with
    | some t => LoadOutcome.ok t
    | none => LoadOutcome.readFailure
  else LoadOutcome.dfUnassigned

/-- `cache_expiration=timedelta(days=1)`, in seconds. -/
def cacheExpirationSeconds : Nat := 86400

/-- The cache key of a `load_data` invocation:
`cache_key_fn=lambda _, params: params.get("file_path")` — the key is the
file path alone. -/
def cache_key_fn (source file_path : String) : String := file_path

/-- A cached task result together with its storage time. -/
structure CacheEntry (α : Type) where
  result : α
  storedAt : Nat
deriving DecidableEq, Repr

/-- Modelled from the spec: the orchestrator's cache lookup (the Prefect
engine is out of scope) — a stored result for the same key, still within
the freshness window, is returned; otherwise the lookup misses. -/
def lookupFresh {α : Type} (cache : List (String × CacheEntry α))
    (key : String) (now : Nat) : Option α :=
  match cache.find? (fun e => e.1 == key) with
  | some e => if now - e.2.storedAt ≤ cacheExpirationSeconds then some e.2.result else none
  | none => none

/-- Outcome of one orchestrated `load_data` task run: its result (if
any), whether the task body actually executed (re-reading the source),
and the cache afterwards. -/
structure TaskRunResult (α : Type) where
  result : Option α
  executed : Bool
  cache : List (String × CacheEntry α)
deriving DecidableEq, Repr

/-- Modelled from the spec: the orchestrator running the `load_data` task
under its cache policy — a fresh hit short-circuits to success with the
cached result and skips execution; a miss executes the body and, on
success, stores the result under the task's cache key. -/
def run_load_task {α : Type} (cache : List (String × CacheEntry α))
    (source file_path : String) (env : LoadEnv α) (now : Nat) : TaskRunResult α :=
  match lookupFresh cache (cache_key_fn source file_path) now with
  | some r => { result := some r, executed := false, cache := cache }
  | none =>
    match load_data source env with
    | LoadOutcome.ok t =>
        { result := some t, executed := true
          cache := (cache_key_fn source file_path, ⟨t, now⟩) :: cache }
    | _ => { result := none, executed := true, cache := cache }

/-! ## Concrete scenario data -/

/-- The end-to-end scenario transaction of §8 of the design. -/
def scenarioTx : AmlRow :=
  { amountPaid := 2000000, paymentCurrency := "USD", timestampRaw := "2024/01/15 03:00" }

/-- A currency lookup containing `USD → "US Dollar"`. -/
def scenarioLookup : List CurrencyRow :=
  [{ currency_code := "USD", currency_name := "US Dollar" }]

/-- A paysim table whose fraud-labeled 95th-percentile amount is
exactly `1500000`. -/
def scenarioPaysim : List PaysimRow :=
  [{ amount := 1500000, isFraud := 1 }]

/-- The final row the scenario produces. -/
def scenarioFinal : FinalRow :=
  { enriched := enrichRow (scenarioTx, none), paysim_high_risk := 1 }

/-- A small committed table for the commit theorems. -/
def sampleFinal : List FinalRow :=
  [{ enriched := enrichRow ({ amountPaid := 1, paymentCurrency := "EUR",
                              timestampRaw := "2024/01/15 12:00" }, none),
     paysim_high_risk := 0 }]

/-- A two-row paysim table and its reversal, for the permutation theorem. -/
def paysimAB : List PaysimRow :=
  [{ amount := 100, isFraud := 1 }, { amount := 200, isFraud := 0 }]

/-- The reversal of `paysimAB`. -/
def paysimBA : List PaysimRow :=
  [{ amount := 200, isFraud := 0 }, { amount := 100, isFraud := 1 }]

/-! ## Helper lemmas -/

/-- Sorting with `≤` yields the empty list exactly on the empty list. -/
theorem insertionSort_eq_nil_iff (xs : List Int) :
    List.insertionSort (· ≤ ·) xs = [] ↔ xs = [] := by
  constructor
  · intro h
    have hp := List.perm_insertionSort (α := Int) (· ≤ ·) xs
    rw [h] at hp
    exact hp.symm.eq_nil
  · intro h
    subst h
    rfl

/-- The modelled quantile estimator is undefined exactly on the empty
value list. -/
theorem approxQuantile95_eq_none_iff (xs : List Int) :
    approxQuantile95 xs = none ↔ xs = [] := by
  rw [← insertionSort_eq_nil_iff]
  unfold approxQuantile95
  cases hs : List.insertionSort (· ≤ ·) xs with
  | nil => simp
  | cons y ys => simp

/-- The modelled quantile estimator is a function of the multiset of
values: permuting the input does not change it. -/
theorem approxQuantile95_perm (xs ys : List Int) (h : xs.Perm ys) :
    approxQuantile95 xs = approxQuantile95 ys := by
  unfold approxQuantile95
  rw [List.eq_of_perm_of_sorted
    ((List.perm_insertionSort (α := Int) (· ≤ ·) xs).trans
      (h.trans (List.perm_insertionSort (α := Int) (· ≤ ·) ys).symm))
    (List.sorted_insertionSort (α := Int) (· ≤ ·) xs)
    (List.sorted_insertionSort (α := Int) (· ≤ ·) ys)]

/-- Every transaction row yields at least one joined row in `leftJoin`. -/
theorem leftJoin_retains (aml : List AmlRow) (cur : List CurrencyRow)
    (t : AmlRow) (ht : t ∈ aml) : ∃ c, (t, c) ∈ leftJoin aml cur := by
  induction aml with
  | nil => cases ht
  | cons a as ih =>
    rcases List.mem_cons.mp ht with h | h
    · subst h
      cases hf : cur.filter (fun c => t.paymentCurrency == c.currency_name) with
      | nil =>
        refine ⟨none, ?_⟩
        simp only [leftJoin, List.flatMap_cons, hf, List.mem_append]
        exact Or.inl (List.mem_singleton.mpr rfl)
      | cons m ms =>
        refine ⟨some m, ?_⟩
        simp only [leftJoin, List.flatMap_cons, hf, List.mem_append]
        exact Or.inl (List.mem_map_of_mem _ (List.mem_cons_self m ms))
    · obtain ⟨c, hc⟩ := ih h
      refine ⟨c, ?_⟩
      simp only [leftJoin, List.flatMap_cons, List.mem_append]
      exact Or.inr hc

/-! ## Claim theorems -/

/-- Claim C1: `cross_ref` fails with `thresholdUndefined` exactly when
the fraud-labeled subset of the paysim table is empty; whenever that
subset is non-empty it returns a table rather than defaulting the
threshold. -/
theorem cross_ref_fails_iff_no_fraud_rows
    (paysim : List PaysimRow) (aml : List EnrichedRow) :
    (cross_ref paysim aml = Except.error CrossRefError.thresholdUndefined ↔
      fraudFilter paysim = [])
    ∧ (fraudFilter paysim ≠ [] →
        ∃ rows, cross_ref paysim aml = Except.ok rows) := by
  have hiff : fraudThreshold paysim = none ↔ fraudFilter paysim = [] := by
    rw [fraudThreshold, approxQuantile95_eq_none_iff, List.map_eq_nil_iff]
  constructor
  · rw [cross_ref]
    cases ht : fraudThreshold paysim with
    | none =>
      simpa using (hiff.mp ht)
    | some t =>
      rw [ht] at hiff
      simp only [iff_false_intro]
      constructor
      · intro h
        exact absurd h (by simp)
      · intro h
        exact absurd (hiff.mpr h) (by simp)
  · intro hne
    rw [cross_ref]
    cases ht : fraudThreshold paysim with
    | none =>
      exact absurd (hiff.mp ht) hne
    | some t =>
      exact ⟨_, rfl⟩

/-- Witness for C1 at concrete inputs: an all-non-fraud paysim table
makes `cross_ref` fail, and a table with one fraud row makes it
succeed. -/
theorem cross_ref_fails_iff_no_fraud_rows_witness :
    cross_ref ([{ amount := 5, isFraud := 0 }] : List PaysimRow) ([] : List EnrichedRow)
        = Except.error CrossRefError.thresholdUndefined
    ∧ ∃ rows, cross_ref ([{ amount := 5, isFraud := 1 }] : List PaysimRow)
        ([] : List EnrichedRow) = Except.ok rows :=
  ⟨(cross_ref_fails_iff_no_fraud_rows [{ amount := 5, isFraud := 0 }] []).1.mpr (by decide),
   (cross_ref_fails_iff_no_fraud_rows [{ amount := 5, isFraud := 1 }] []).2 (by decide)⟩

/-- Claim C4: for every hour of day, the night flag is 1 exactly when the
hour is below 6 or above 21, with the stated boundary values. -/
theorem night_flag_iff (h : Nat) (hle : h ≤ 23) :
    (nightFlag (some h) = 1 ↔ (h < 6 ∨ h > 21))
    ∧ nightFlag (some 6) = 0 ∧ nightFlag (some 21) = 0
    ∧ nightFlag (some 5) = 1 ∧ nightFlag (some 22) = 1 := by
  refine ⟨?_, by decide, by decide, by decide, by decide⟩
  by_cases hc : h < 6 ∨ h > 21 <;> simp [nightFlag, hc]

/-- Witness for C4 at hour 3. -/
theorem night_flag_iff_witness :
    (nightFlag (some 3) = 1 ↔ (3 < 6 ∨ 3 > 21))
    ∧ nightFlag (some 6) = 0 ∧ nightFlag (some 21) = 0
    ∧ nightFlag (some 5) = 1 ∧ nightFlag (some 22) = 1 :=
  night_flag_iff 3 (by decide)

/-- Claim C5: in every enriched row, the high-amount flag is 1 exactly
when the amount exceeds 1,000,000 (an amount of exactly 1,000,000 gives
0), and the AML alert flag equals the high-amount flag. -/
theorem enriched_high_amount_and_alert_flags
    (aml : List AmlRow) (cur : List CurrencyRow) (r : EnrichedRow)
    (hr : r ∈ enrich_and_flag_aml aml cur) :
    (r.high_amount_flag = 1 ↔ r.base.amountPaid > 1000000)
    ∧ r.aml_alert_flag = r.high_amount_flag
    ∧ (r.base.amountPaid = 1000000 → r.high_amount_flag = 0) := by
  obtain ⟨p, hp, rfl⟩ := List.mem_map.mp hr
  by_cases hgt : p.1.amountPaid > 1000000
  · refine ⟨by simp [enrichRow, highAmountFlag, hgt], ?_, ?_⟩
    · simp [enrichRow, highAmountFlag, amlAlertFlag, hgt]
    · intro he
      have he2 : p.1.amountPaid = 1000000 := he
      rw [he2] at hgt
      exact absurd hgt (by decide)
  · refine ⟨by simp [enrichRow, highAmountFlag, hgt], ?_, ?_⟩
    · simp [enrichRow, highAmountFlag, amlAlertFlag, hgt]
    · intro _
      simp [enrichRow, highAmountFlag, hgt]

/-- Witness for C5 at the scenario transaction enriched against an empty
lookup. -/
theorem enriched_high_amount_and_alert_flags_witness :
    ((enrichRow (scenarioTx, none)).high_amount_flag = 1 ↔
      (enrichRow (scenarioTx, none)).base.amountPaid > 1000000)
    ∧ (enrichRow (scenarioTx, none)).aml_alert_flag
        = (enrichRow (scenarioTx, none)).high_amount_flag
    ∧ ((enrichRow (scenarioTx, none)).base.amountPaid = 1000000 →
        (enrichRow (scenarioTx, none)).high_amount_flag = 0) :=
  enriched_high_amount_and_alert_flags [scenarioTx] [] (enrichRow (scenarioTx, none))
    (by decide)

/-- Claim C6: the enrichment's left outer join (keyed on the transaction's
`Payment Currency` against the lookup's `currency_name`) retains every
transaction row: each input transaction appears as the base of some
output row, lookup match or not. -/
theorem enrich_retains_all_transactions
    (aml : List AmlRow) (cur : List CurrencyRow) (t : AmlRow) (ht : t ∈ aml) :
    t ∈ (enrich_and_flag_aml aml cur).map EnrichedRow.base := by
  obtain ⟨c, hc⟩ := leftJoin_retains aml cur t ht
  exact List.mem_map_of_mem EnrichedRow.base (List.mem_map_of_mem enrichRow hc)

/-- Witness for C6: the scenario transaction, whose currency code matches
no lookup name, is still retained. -/
theorem enrich_retains_all_transactions_witness :
    scenarioTx ∈ (enrich_and_flag_aml [scenarioTx] scenarioLookup).map EnrichedRow.base :=
  enrich_retains_all_transactions [scenarioTx] scenarioLookup scenarioTx (by decide)

/-- Claim C7: for a paysim table with a non-empty fraud-labeled subset,
the cross-reference threshold is invariant under any permutation of the
rows, and is defined. -/
theorem fraud_threshold_perm_invariant
    (p1 p2 : List PaysimRow) (hperm : p1.Perm p2)
    (hne : fraudFilter p1 ≠ []) :
    fraudThreshold p1 = fraudThreshold p2
    ∧ ∃ t, fraudThreshold p1 = some t := by
  constructor
  · unfold fraudThreshold fraudFilter
    exact approxQuantile95_perm _ _
      ((hperm.filter (fun r => r.isFraud == 1)).map PaysimRow.amount)
  · cases ht : fraudThreshold p1 with
    | none =>
      rw [fraudThreshold, approxQuantile95_eq_none_iff, List.map_eq_nil_iff] at ht
      exact absurd ht hne
    | some t => exact ⟨t, rfl⟩

/-- Witness for C7 on a two-row table and its reversal. -/
theorem fraud_threshold_perm_invariant_witness :
    fraudThreshold paysimAB = fraudThreshold paysimBA
    ∧ ∃ t, fraudThreshold paysimAB = some t :=
  fraud_threshold_perm_invariant paysimAB paysimBA
    (List.Perm.swap _ _ _) (by decide)

/-- Counterexample to claim C2 as stated: a run whose commit fails at the
`CREATE OR REPLACE VIEW` statement — after the `CREATE OR REPLACE TABLE`
statement already succeeded — is not fully successful, yet it has
replaced the previously committed `fraud_transactions` table. -/
theorem commit_view_failure_counterexample :
    (load_to_duckdb { fraud_transactions := some [], high_risk_alerts_view := none }
        sampleFinal ⟨true, true, true, false, true⟩).ok = false
    ∧ (load_to_duckdb { fraud_transactions := some [], high_risk_alerts_view := none }
        sampleFinal ⟨true, true, true, false, true⟩).store.fraud_transactions
        = some sampleFinal
    ∧ some sampleFinal ≠ some ([] : List FinalRow) := by
  refine ⟨rfl, rfl, ?_⟩
  decide

/-- Claim C2 (amended): if the commit fails during staging, while opening
the store connection, or at the table replace itself, the previously
committed `fraud_transactions` table is left unchanged and the task
fails; only failures after a successful table replace can leave the new
table committed. -/
theorem commit_keeps_previous_table_on_early_failure
    (prev : StoreState) (final : List FinalRow) (f : CommitFaults)
    (h : f.stageOk = false ∨ f.connectOk = false ∨ f.replaceTableOk = false) :
    (load_to_duckdb prev final f).store.fraud_transactions = prev.fraud_transactions
    ∧ (load_to_duckdb prev final f).ok = false := by
  rcases f with ⟨s, c, rt, rv, ct⟩
  cases s <;> cases c <;> cases rt <;> simp_all [load_to_duckdb]

/-- Witness for the amended C2 at a concrete failed staging write. -/
theorem commit_keeps_previous_table_on_early_failure_witness :
    (load_to_duckdb { fraud_transactions := some [], high_risk_alerts_view := none }
        sampleFinal ⟨false, true, true, true, true⟩).store.fraud_transactions
      = ({ fraud_transactions := some [], high_risk_alerts_view := none } : StoreState).fraud_transactions
    ∧ (load_to_duckdb { fraud_transactions := some [], high_risk_alerts_view := none }
        sampleFinal ⟨false, true, true, true, true⟩).ok = false :=
  commit_keeps_previous_table_on_early_failure
    { fraud_transactions := some [], high_risk_alerts_view := none }
    sampleFinal ⟨false, true, true, true, true⟩ (Or.inl rfl)

/-- Claim C3: the end-to-end scenario — amount 2,000,000, currency `USD`,
timestamp `2024/01/15 03:00`, lookup `USD → "US Dollar"` — yields
`is_night_transaction = 1`, `high_amount_flag = 1`, `aml_alert_flag = 1`;
with a computed threshold of 1,500,000 the cross-reference flag is 1 and
the record appears in the `high_risk_alerts` view. -/
theorem end_to_end_scenario :
    fraudThreshold scenarioPaysim = some 1500000
    ∧ cross_ref scenarioPaysim (enrich_and_flag_aml [scenarioTx] scenarioLookup)
        = Except.ok [scenarioFinal]
    ∧ scenarioFinal.enriched.is_night_transaction = 1
    ∧ scenarioFinal.enriched.high_amount_flag = 1
    ∧ scenarioFinal.enriched.aml_alert_flag = 1
    ∧ scenarioFinal.paysim_high_risk = 1
    ∧ scenarioFinal ∈ high_risk_alerts [scenarioFinal] := by
  refine ⟨rfl, rfl, rfl, rfl, rfl, rfl, ?_⟩
  decide

/-- Claim C8: whatever the commit outcome, a DuckDB connection that was
opened during `load_to_duckdb` is closed by the `finally` block before
the task ends. -/
theorem commit_releases_connection
    (prev : StoreState) (final : List FinalRow) (f : CommitFaults)
    (h : (load_to_duckdb prev final f).connOpened = true) :
    (load_to_duckdb prev final f).connClosed = true := by
  rcases f with ⟨s, c, rt, rv, ct⟩
  cases s <;> cases c <;> cases rt <;> cases rv <;> cases ct <;>
    simp_all [load_to_duckdb]

/-- Witness for C8 on a fully successful commit. -/
theorem commit_releases_connection_witness :
    (load_to_duckdb { fraud_transactions := none, high_risk_alerts_view := none }
        sampleFinal ⟨true, true, true, true, true⟩).connClosed = true :=
  commit_releases_connection
    { fraud_transactions := none, high_risk_alerts_view := none }
    sampleFinal ⟨true, true, true, true, true⟩ rfl

/-- Claim C9: a loader run that executed and succeeded stores its result
under the file-path cache key; a second run with the same file path
within the freshness window is a cache hit — it returns the identical
result without executing the task body, whatever the source contents
would now read as. -/
theorem loader_cache_hit {α : Type} (cache : List (String × CacheEntry α))
    (source source2 file_path : String) (env env2 : LoadEnv α)
    (t1 t2 : Nat) (T : α)
    (hexec : (run_load_task cache source file_path env t1).executed = true)
    (hres : (run_load_task cache source file_path env t1).result = some T)
    (hfresh : t2 - t1 ≤ cacheExpirationSeconds) :
    run_load_task (run_load_task cache source file_path env t1).cache
        source2 file_path env2 t2
      = { result := some T, executed := false
          cache := (run_load_task cache source file_path env t1).cache } := by
  unfold run_load_task at hexec hres ⊢
  cases hl : lookupFresh cache (cache_key_fn source file_path) t1 with
  | some r =>
    rw [hl] at hexec
    simp at hexec
  | none =>
    rw [hl] at hexec hres
    cases hld : load_data source env with
    | ok t =>
      rw [hld] at hres
      simp at hres
      subst hres
      simp [lookupFresh, cache_key_fn, List.find?, hfresh]
    | readFailure =>
      rw [hld] at hres
      simp at hres
    | dfUnassigned =>
      rw [hld] at hres
      simp at hres

/-- Witness for C9: a paysim load cached at time 100 is returned
unchanged at time 200 even though the source would now read
differently. -/
theorem loader_cache_hit_witness :
    run_load_task (run_load_task ([] : List (String × CacheEntry Nat))
        "paysim" "base/fraud_detection.parquet" ⟨some 7, none, none⟩ 100).cache
        "paysim" "base/fraud_detection.parquet" ⟨some 8, none, none⟩ 200
      = { result := some 7, executed := false
          cache := (run_load_task ([] : List (String × CacheEntry Nat))
            "paysim" "base/fraud_detection.parquet" ⟨some 7, none, none⟩ 100).cache } :=
  loader_cache_hit [] "paysim" "paysim" "base/fraud_detection.parquet"
    ⟨some 7, none, none⟩ ⟨some 8, none, none⟩ 100 200 7
    (by decide) (by decide) (by decide)

/-- Claim C10: for any source kind other than `paysim`, `aml` and
`currency`, no branch of `load_data` assigns `df`, so the task cannot
return a table: it fails at the row-count step with the unbound local,
whatever the read environment holds. -/
theorem load_data_unsupported_source {α : Type} (source : String)
    (env : LoadEnv α)
    (h1 : source ≠ "paysim") (h2 : source ≠ "aml") (h3 : source ≠ "currency") :
    load_data source env = LoadOutcome.dfUnassigned := by
  simp [load_data, h1, h2, h3]

/-- Witness for C10 at the unsupported source kind `xml`. -/
theorem load_data_unsupported_source_witness :
    load_data "xml" (⟨some 0, some 0, some 0⟩ : LoadEnv Nat)
      = LoadOutcome.dfUnassigned :=
  load_data_unsupported_source "xml" ⟨some 0, some 0, some 0⟩
    (by decide) (by decide) (by decide)

end FraudPipeline
